import Mathlib

/-!
Shallow embedding of the search pipeline of the DevOps-Valgfag (WhoKnows) web
application, and proofs of the specified properties.

Embedded source files:
  - src/internal/db/external.go   (ExternalExists, InsertExternal, GetExternal)
  - src/internal/db/db.go         (createTables: external_results schema and its
                                   unique index on (query, language, title))
  - src/handlers/search.go        (runSearch, queryLocal, loadExternalBestEffort,
                                   APISearchHandler, pageLimit, apiLimit)
  - src/internal/scraper/wikipedia.go (WikipediaSearch limit clamp)

Database queries against the pages table (FTS and ILIKE) and the outbound
Wikipedia call are modelled as oracles in an environment record: the claims
settled here are about the control flow of the pipeline around them, not about
the SQL engine itself. The external_results cache is modelled concretely as a
list of rows together with the unique index that createTables installs.
-/

namespace WhoKnows

/-- A row of the external_results table (src/internal/db/db.go createTables).
The id and created_at columns play no role in any claim and are omitted. -/
structure ExtRow where
  query : String
  language : String
  title : String
  url : String
  snippet : String
deriving DecidableEq, Repr

/-- The ExternalResult record of src/internal/db/external.go. -/
structure ExternalResult where
  title : String
  url : String
  snippet : String
deriving DecidableEq, Repr

/-- The ScrapedResult record of src/internal/scraper/wikipedia.go. -/
structure ScrapedResult where
  title : String
  url : String
  snippet : String
deriving DecidableEq, Repr

/-- The normalized SearchResult shape of src/handlers/search.go. -/
structure SearchResult where
  id : Int
  title : String
  url : String
  language : String
  description : String
deriving DecidableEq, Repr

/-- UI result limit, src/handlers/search.go line 32. -/
def pageLimit : Nat := 50

/-- API result limit, src/handlers/search.go line 33. -/
def apiLimit : Nat := 10

/-- Row matching for the unique index created by createTables
(src/internal/db/db.go lines 34 and 35):
CREATE UNIQUE INDEX idx_query_lang_unique ON external_results
(query, language, title). A new row conflicts with row r when all three
indexed columns coincide. -/
def conflictsWith (q lang title : String) (r : ExtRow) : Bool :=
  r.query == q && r.language == lang && r.title == title

/-- One INSERT OR IGNORE execution (src/internal/db/external.go lines 44 and
following) against the unique index on (query, language, title): when a row
with the same indexed triple exists, the statement is ignored, otherwise a
new row is appended. -/
def insertOrIgnore (tbl : List ExtRow) (q lang : String) (it : ExternalResult) :
    List ExtRow :=
  if tbl.any (conflictsWith q lang it.title) then tbl
  else tbl ++ [⟨q, lang, it.title, it.url, it.snippet⟩]

/-- Result of an InsertExternal call: whether an error was returned, the
committed state of the external_results table afterwards, and how many
database operations (Begin, Prepare, Exec, Rollback, Commit) were issued. -/
structure InsertOutcome where
  err : Bool
  table : List ExtRow
  dbOps : Nat
deriving DecidableEq, Repr

/-- The per-item Exec loop of InsertExternal (src/internal/db/external.go
lines 55 to 61), threading an uncommitted table copy. The oracle execFail
tells whether the Exec of the item at a given index fails; at the first
failing Exec the loop stops with none (the caller rolls back). Returns the
uncommitted table and the number of Exec operations issued. -/
def insertLoop (execFail : Nat → Bool) (q lang : String) :
    List ExternalResult → Nat → List ExtRow → Option (List ExtRow) × Nat
  | [], _, tbl => (some tbl, 0)
  | it :: rest, i, tbl =>
      if execFail i then (none, 1)
      else
        let r := insertLoop execFail q lang rest (i + 1) (insertOrIgnore tbl q lang it)
        (r.1, r.2 + 1)

/-- InsertExternal (src/internal/db/external.go lines 29 to 67): empty input
returns nil at once without touching the database; otherwise a transaction is
begun, every item is inserted with INSERT OR IGNORE, and any failure (Begin,
Prepare, a per-item Exec, or Commit) rolls the whole batch back, leaving the
committed table unchanged and returning an error. -/
def InsertExternal (beginFail prepareFail : Bool) (execFail : Nat → Bool)
    (commitFail : Bool) (tbl : List ExtRow) (q lang : String)
    (items : List ExternalResult) : InsertOutcome :=
  if items.isEmpty then ⟨false, tbl, 0⟩
  else if beginFail then ⟨true, tbl, 1⟩
  else if prepareFail then ⟨true, tbl, 2⟩
  else
    match insertLoop execFail q lang items 0 tbl with
    | (none, n) => ⟨true, tbl, n + 3⟩
    | (some t, n) => if commitFail then ⟨true, tbl, n + 3⟩ else ⟨false, t, n + 3⟩

/-- ExternalExists (src/internal/db/external.go lines 15 to 26): counts rows
with the given query and language; a failing COUNT query is logged and
reported as false. -/
def ExternalExists (queryFail : Bool) (tbl : List ExtRow) (q lang : String) :
    Bool :=
  if queryFail then false
  else 0 < (tbl.filter (fun r => r.query == q && r.language == lang)).length

/-- GetExternal (src/internal/db/external.go lines 70 to 99): selects title,
url, snippet of every row with the given query and language, in storage
order; a failing query is an error. -/
def GetExternal (queryFail : Bool) (tbl : List ExtRow) (q lang : String) :
    Except Unit (List ExternalResult) :=
  if queryFail then .error ()
  else .ok ((tbl.filter (fun r => r.query == q && r.language == lang)).map
    (fun r => ⟨r.title, r.url, r.snippet⟩))

/-- Per-request environment: the two feature flags of src/handlers/search.go
(useFTSSearch and externalEnabled), oracles for the outcomes of the two pages
queries (queryFTS and queryILIKE) as functions of query, language and limit,
the current external_results table with failure switches for the three cache
statements, and an oracle for the outbound WikipediaSearch call. -/
structure Env where
  useFTS : Bool
  externalEnabled : Bool
  ftsOutcome : String → String → Nat → Except Unit (List SearchResult)
  ilikeOutcome : String → String → Nat → Except Unit (List SearchResult)
  existsFail : Bool
  extTable : List ExtRow
  scrapeOutcome : String → Nat → Except Unit (List ScrapedResult)
  beginFail : Bool
  prepareFail : Bool
  execFail : Nat → Bool
  commitFail : Bool
  getFail : Bool

/-- Observable side effects of one runSearch execution: number of queries
issued against the pages table, number of SELECTs against the
external_results table, number of database operations of the insert path
against it, number of outbound WikipediaSearch calls, and number of
metrics.SearchTotal increments. -/
structure Trace where
  localQueries : Nat
  cacheReads : Nat
  cacheWrites : Nat
  scraperCalls : Nat
  searchTotalIncs : Nat
deriving DecidableEq, Repr

/-- The all-zero trace: no database access, no outbound call, no metric. -/
def Trace.none : Trace := ⟨0, 0, 0, 0, 0⟩

/-- queryLocal (src/handlers/search.go lines 211 to 220) instrumented with
the number of pages queries issued: with FTS enabled it tries queryFTS first
and on error falls back to queryILIKE for the same query, language and
limit; otherwise it goes straight to queryILIKE. -/
def queryLocal (env : Env) (q lang : String) (limit : Nat) :
    Except Unit (List SearchResult) × Nat :=
  if env.useFTS then
    match env.ftsOutcome q lang limit with
    | .ok res => (.ok res, 1)
    | .error _ => (env.ilikeOutcome q lang limit, 2)
  else (env.ilikeOutcome q lang limit, 1)

/-- Result of the enrichment phase: the SearchResults appended to the local
list, the external_results table afterwards, and its share of the trace. -/
structure ExtPhase where
  results : List SearchResult
  table : List ExtRow
  cacheReads : Nat
  cacheWrites : Nat
  scraperCalls : Nat
deriving DecidableEq, Repr

/-- loadExternalBestEffort (src/handlers/search.go lines 289 to 327): when
ExternalExists reports no cache for (q, lang), WikipediaSearch is called with
limit 10 and any nonempty scrape is stored through InsertExternal, every
failure being logged and swallowed; then GetExternal reads the cache back,
a failing read yielding nil, and each cached row becomes a SearchResult with
id 0 and the request language. -/
def loadExternalBestEffort (env : Env) (q lang : String) : ExtPhase :=
  let fill :=
    if ExternalExists env.existsFail env.extTable q lang then
      (env.extTable, 0, 0)
    else
      match env.scrapeOutcome q 10 with
      | .error _ => (env.extTable, 0, 1)
      | .ok scraped =>
          if 0 < scraped.length then
            let store : List ExternalResult :=
              scraped.map (fun s => ⟨s.title, s.url, s.snippet⟩)
            let out := InsertExternal env.beginFail env.prepareFail
              env.execFail env.commitFail env.extTable q lang store
            (out.table, out.dbOps, 1)
          else (env.extTable, 0, 1)
  match GetExternal env.getFail fill.1 q lang with
  | .error _ => ⟨[], fill.1, 2, fill.2.1, fill.2.2⟩
  | .ok ext =>
      ⟨ext.map (fun e => ⟨0, e.title, e.url, lang, e.snippet⟩),
       fill.1, 2, fill.2.1, fill.2.2⟩

/-- Result of one runSearch execution: the capped result list, the
external_results table afterwards, and the effect trace. -/
structure SearchOutcome where
  results : List SearchResult
  table : List ExtRow
  trace : Trace
deriving DecidableEq, Repr

/-- The local result list runSearch works with: the value of queryLocal, or
the empty list when queryLocal returned an error (search.go lines 185 to
189). -/
def localResults (env : Env) (q lang : String) (limit : Nat) :
    List SearchResult :=
  match (queryLocal env q lang limit).1 with
  | .ok res => res
  | .error _ => []

/-- Embeds strings.TrimSpace from the Go standard library as used in
runSearch: remove leading and trailing whitespace characters. Written over
the character list of the string so that it evaluates inside the kernel. -/
def trimSpace (s : String) : String :=
  ⟨((s.data.dropWhile Char.isWhitespace).reverse.dropWhile
      Char.isWhitespace).reverse⟩

/-- runSearch (src/handlers/search.go lines 172 to 203): trim the query and
short-circuit on empty; increment SearchTotal; run the local query, treating
an error as zero local results; for the page path with enrichment enabled,
append the enrichment rows; finally truncate to the limit. -/
def runSearch (env : Env) (q lang : String) (limit : Nat)
    (includeExternal : Bool) : SearchOutcome :=
  let qt := trimSpace q
  if qt = "" then ⟨[], env.extTable, Trace.none⟩
  else
    let lq := (queryLocal env qt lang limit).2
    let locals := localResults env qt lang limit
    if includeExternal && env.externalEnabled then
      let ep := loadExternalBestEffort env qt lang
      ⟨(locals ++ ep.results).take limit, ep.table,
       ⟨lq, ep.cacheReads, ep.cacheWrites, ep.scraperCalls, 1⟩⟩
    else
      ⟨locals.take limit, env.extTable, ⟨lq, 0, 0, 0, 1⟩⟩

/-- Body of a JSON response written by writeJSON in the API search handler:
either an error object or the search_results payload. -/
inductive ApiBody where
  | errorBody (msg : String)
  | searchResults (rs : List SearchResult)
deriving DecidableEq, Repr

/-- An API response together with the table state and trace after handling. -/
structure ApiResponse where
  status : Nat
  body : ApiBody
  table : List ExtRow
  trace : Trace
deriving DecidableEq, Repr

/-- getLanguage (src/handlers/search.go lines 331 to 337): default "en". -/
def getLanguage (lang : String) : String :=
  if lang = "" then "en" else lang

/-- APISearchHandler (src/handlers/search.go lines 135 to 158): a nil
database yields a 500 JSON error; an unauthenticated session yields a 401
JSON error before any search work; otherwise runSearch with apiLimit and no
external enrichment, answered with status 200. -/
def APISearchHandler (env : Env) (dbConfigured authed : Bool)
    (q lang : String) : ApiResponse :=
  if !dbConfigured then
    ⟨500, .errorBody "database not configured", env.extTable, Trace.none⟩
  else if !authed then
    ⟨401, .errorBody "unauthorized", env.extTable, Trace.none⟩
  else
    let o := runSearch env q (getLanguage lang) apiLimit false
    ⟨200, .searchResults o.results, o.table, o.trace⟩

/-- The limit clamp at the head of WikipediaSearch
(src/internal/scraper/wikipedia.go, the revision at lines 98 to 157, clamp at
lines 101 to 106): a limit of at most 0 becomes 10, a limit above 50 becomes
50, anything else is passed through; the result is the srlimit parameter sent
upstream. -/
def wikipediaEffectiveLimit (limit : Int) : Int :=
  if limit ≤ 0 then 10
  else if limit > 50 then 50
  else limit

/-! Shared concrete material for witnesses. -/

/-- An exec oracle under which no insert statement fails. -/
def noExecFail : Nat → Bool := fun _ => false

/-- An exec oracle under which the very first insert statement fails. -/
def failFirstExec : Nat → Bool := fun i => i == 0

/-- A benign environment: substring mode, enrichment allowed, one local
match, one scrape hit, empty cache, no induced failures. -/
def envOk : Env where
  useFTS := false
  externalEnabled := true
  ftsOutcome := fun _ _ _ => .ok []
  ilikeOutcome := fun _ _ _ =>
    .ok [⟨1, "Welcome", "/welcome", "en", "Welcome to WhoKnows"⟩]
  existsFail := false
  extTable := []
  scrapeOutcome := fun _ _ =>
    .ok [⟨"Rust", "https://en.wikipedia.org/?curid=1", "snip"⟩]
  beginFail := false
  prepareFail := false
  execFail := noExecFail
  commitFail := false
  getFail := false

/-- envOk with FTS enabled but every FTS query failing. -/
def envFtsBroken : Env :=
  { envOk with useFTS := true, ftsOutcome := fun _ _ _ => .error () }

/-- envOk with a failing COUNT query in ExternalExists. -/
def envExistsBroken : Env :=
  { envOk with existsFail := true }

/-! Helper lemmas shared between claims. -/

/-- The result list of runSearch is a truncation, so its length is bounded
by the limit in every branch. -/
theorem runSearch_length_le (env : Env) (q lang : String) (limit : Nat)
    (includeExternal : Bool) :
    (runSearch env q lang limit includeExternal).results.length ≤ limit := by
  unfold runSearch
  dsimp only
  split
  · simp
  · split
    · exact List.length_take_le limit _
    · exact List.length_take_le limit _

/-- Any failing run of insertLoop yields none: the first failing Exec stops
the loop. -/
theorem insertLoop_none_of_exists_fail (execFail : Nat → Bool)
    (q lang : String) :
    ∀ (items : List ExternalResult) (s : Nat) (tbl : List ExtRow),
      (∃ i, i < items.length ∧ execFail (s + i) = true) →
      (insertLoop execFail q lang items s tbl).1 = none := by
  intro items
  induction items with
  | nil =>
      intro s tbl h
      obtain ⟨i, hi, _⟩ := h
      simp at hi
  | cons it rest ih =>
      intro s tbl h
      obtain ⟨i, hi, hef⟩ := h
      unfold insertLoop
      by_cases h0 : execFail s
      · simp [h0]
      · simp only [h0, if_false]
        apply ih (s + 1)
        cases i with
        | zero =>
            rw [Nat.add_zero] at hef
            exact absurd hef (by simp [h0])
        | succ j =>
            refine ⟨j, by simpa using hi, ?_⟩
            rw [show s + 1 + j = s + (j + 1) by omega]
            exact hef

/-! Claims. -/

/-- C2: for every query that is nonempty after trimming, runSearch never
returns more than apiLimit (10) results on the API path nor more than
pageLimit (50) results on the page path, whatever the local and external
sources hold. -/
theorem runSearch_cap_invariant (env : Env) (q lang : String)
    (_h : trimSpace q ≠ "") :
    (runSearch env q lang apiLimit false).results.length ≤ apiLimit ∧
    (runSearch env q lang pageLimit true).results.length ≤ pageLimit :=
  ⟨runSearch_length_le env q lang apiLimit false,
   runSearch_length_le env q lang pageLimit true⟩

/-- Witness for C2 at a concrete nonempty query. -/
theorem runSearch_cap_invariant_witness :
    (runSearch envOk "welcome" "en" apiLimit false).results.length ≤ apiLimit ∧
    (runSearch envOk "welcome" "en" pageLimit true).results.length ≤ pageLimit :=
  runSearch_cap_invariant envOk "welcome" "en" (by decide)

/-- C3: a query that is empty after trimming short-circuits runSearch: the
result list is empty, the cache table is untouched, and the trace shows no
local query, no cache access, no scraper call and no SearchTotal
increment. -/
theorem runSearch_empty_query_short_circuit (env : Env) (q lang : String)
    (limit : Nat) (includeExternal : Bool) (h : trimSpace q = "") :
    runSearch env q lang limit includeExternal =
      ⟨[], env.extTable, Trace.none⟩ := by
  unfold runSearch
  simp [h]

/-- Witness for C3 at a whitespace-only query. -/
theorem runSearch_empty_query_short_circuit_witness :
    runSearch envOk "  " "en" pageLimit true = ⟨[], envOk.extTable, Trace.none⟩ :=
  runSearch_empty_query_short_circuit envOk "  " "en" pageLimit true (by decide)

/-- C5: with full-text mode enabled, a failing FTS query makes queryLocal
return exactly the ILIKE outcome for the same query, language and limit, so
no FTS error reaches the caller. -/
theorem queryLocal_fts_fallback (env : Env) (q lang : String) (limit : Nat)
    (hf : env.useFTS = true) (he : env.ftsOutcome q lang limit = .error ()) :
    (queryLocal env q lang limit).1 = env.ilikeOutcome q lang limit := by
  unfold queryLocal
  rw [hf]
  simp [he]

/-- Witness for C5 in an environment whose FTS queries always fail. -/
theorem queryLocal_fts_fallback_witness :
    (queryLocal envFtsBroken "welcome" "en" pageLimit).1 =
      envFtsBroken.ilikeOutcome "welcome" "en" pageLimit :=
  queryLocal_fts_fallback envFtsBroken "welcome" "en" pageLimit rfl rfl

/-- C7: the limit actually sent upstream by WikipediaSearch is always in the
range 1 to 50, and every limit of at most 0 is replaced by the default
10. -/
theorem wikipedia_limit_clamped (limit : Int) :
    1 ≤ wikipediaEffectiveLimit limit ∧ wikipediaEffectiveLimit limit ≤ 50 ∧
    (limit ≤ 0 → wikipediaEffectiveLimit limit = 10) := by
  unfold wikipediaEffectiveLimit
  by_cases h1 : limit ≤ 0
  · simp [h1]
  · by_cases h2 : limit > 50 <;> simp [h1, h2] <;> try omega

/-- Witness for C7 at the concrete limit -5. -/
theorem wikipedia_limit_clamped_witness :
    1 ≤ wikipediaEffectiveLimit (-5) ∧ wikipediaEffectiveLimit (-5) ≤ 50 ∧
    ((-5 : Int) ≤ 0 → wikipediaEffectiveLimit (-5) = 10) :=
  wikipedia_limit_clamped (-5)

/-- C4: on the page path with enrichment enabled and a nonempty trimmed
query, the output of runSearch is exactly the local results followed by the
enrichment results, truncated to the limit; when the local results alone
reach the limit the output is the truncated local list, so every emitted row
is a local row and no enrichment row appears. -/
theorem runSearch_local_priority (env : Env) (q lang : String) (limit : Nat)
    (h : trimSpace q ≠ "") (hx : env.externalEnabled = true) :
    (runSearch env q lang limit true).results =
      (localResults env (trimSpace q) lang limit ++
        (loadExternalBestEffort env (trimSpace q) lang).results).take limit ∧
    (limit ≤ (localResults env (trimSpace q) lang limit).length →
      (runSearch env q lang limit true).results =
        (localResults env (trimSpace q) lang limit).take limit) ∧
    (limit ≤ (localResults env (trimSpace q) lang limit).length →
      ∀ r ∈ (runSearch env q lang limit true).results,
        r ∈ localResults env (trimSpace q) lang limit) := by
  have hmain : (runSearch env q lang limit true).results =
      (localResults env (trimSpace q) lang limit ++
        (loadExternalBestEffort env (trimSpace q) lang).results).take limit := by
    unfold runSearch
    simp [h, hx]
  refine ⟨hmain, fun hlen => ?_, fun hlen r hr => ?_⟩
  · rw [hmain]
    exact List.take_append_of_le_length hlen
  · rw [hmain, List.take_append_of_le_length hlen] at hr
    exact List.take_subset limit _ hr

/-- Witness for C4: enrichment enabled, limit 1 already filled locally. -/
theorem runSearch_local_priority_witness :
    ((runSearch envOk "welcome" "en" 1 true).results =
      (localResults envOk (trimSpace "welcome") "en" 1 ++
        (loadExternalBestEffort envOk (trimSpace "welcome") "en").results).take 1) ∧
    (1 ≤ (localResults envOk (trimSpace "welcome") "en" 1).length →
      (runSearch envOk "welcome" "en" 1 true).results =
        (localResults envOk (trimSpace "welcome") "en" 1).take 1) ∧
    (1 ≤ (localResults envOk (trimSpace "welcome") "en" 1).length →
      ∀ r ∈ (runSearch envOk "welcome" "en" 1 true).results,
        r ∈ localResults envOk (trimSpace "welcome") "en" 1) :=
  runSearch_local_priority envOk "welcome" "en" 1 (by decide) rfl

/-- C6: when enrichment is excluded (API path) or globally disabled, one
runSearch execution leaves the external_results table unchanged, issues no
cache read, no cache write and no scraper call, and every emitted row comes
from the local result list. -/
theorem runSearch_enrichment_toggle (env : Env) (q lang : String)
    (limit : Nat) (includeExternal : Bool)
    (h : includeExternal = false ∨ env.externalEnabled = false) :
    (runSearch env q lang limit includeExternal).table = env.extTable ∧
    (runSearch env q lang limit includeExternal).trace.cacheReads = 0 ∧
    (runSearch env q lang limit includeExternal).trace.cacheWrites = 0 ∧
    (runSearch env q lang limit includeExternal).trace.scraperCalls = 0 ∧
    ∀ r ∈ (runSearch env q lang limit includeExternal).results,
      r ∈ localResults env (trimSpace q) lang limit := by
  have hcond : (includeExternal && env.externalEnabled) = false := by
    rcases h with h | h <;> simp [h]
  unfold runSearch
  by_cases hq : trimSpace q = ""
  · simp [hq, Trace.none]
  · simp only [hq, if_false, hcond, Bool.false_eq_true]
    exact ⟨trivial, trivial, trivial, trivial,
      fun r hr => List.take_subset limit _ hr⟩

/-- Witness for C6 on the API path of a benign environment. -/
theorem runSearch_enrichment_toggle_witness :
    (runSearch envOk "welcome" "en" apiLimit false).table = envOk.extTable ∧
    (runSearch envOk "welcome" "en" apiLimit false).trace.cacheReads = 0 ∧
    (runSearch envOk "welcome" "en" apiLimit false).trace.cacheWrites = 0 ∧
    (runSearch envOk "welcome" "en" apiLimit false).trace.scraperCalls = 0 ∧
    ∀ r ∈ (runSearch envOk "welcome" "en" apiLimit false).results,
      r ∈ localResults envOk (trimSpace "welcome") "en" apiLimit :=
  runSearch_enrichment_toggle envOk "welcome" "en" apiLimit false (Or.inl rfl)

/-- C8: with the database configured, an unauthenticated request to the API
search handler is answered with status 401 and the JSON error body
unauthorized, the cache table is untouched and the trace is empty: the
search pipeline is never entered. -/
theorem api_search_unauthorized (env : Env) (authed : Bool) (q lang : String)
    (h : authed = false) :
    APISearchHandler env true authed q lang =
      ⟨401, .errorBody "unauthorized", env.extTable, Trace.none⟩ := by
  subst h
  unfold APISearchHandler
  simp

/-- Witness for C8 at a concrete unauthenticated request. -/
theorem api_search_unauthorized_witness :
    APISearchHandler envOk true false "welcome" "" =
      ⟨401, .errorBody "unauthorized", envOk.extTable, Trace.none⟩ :=
  api_search_unauthorized envOk false "welcome" "" rfl

/-- C9: InsertExternal on an empty batch returns no error and issues no
database operation; whenever InsertExternal reports an error (Begin,
Prepare, a per-item Exec, or Commit failing) the committed table is exactly
the table before the call, so no row of the batch persists; and any failing
per-item Exec does make the call report an error. -/
theorem insertExternal_atomicity (beginFail prepareFail : Bool)
    (execFail : Nat → Bool) (commitFail : Bool) (tbl : List ExtRow)
    (q lang : String) (items : List ExternalResult) :
    (items = [] →
      InsertExternal beginFail prepareFail execFail commitFail tbl q lang items =
        ⟨false, tbl, 0⟩) ∧
    ((InsertExternal beginFail prepareFail execFail commitFail tbl q lang
        items).err = true →
      (InsertExternal beginFail prepareFail execFail commitFail tbl q lang
        items).table = tbl) ∧
    (beginFail = false → prepareFail = false →
      (∃ i, i < items.length ∧ execFail i = true) →
      (InsertExternal beginFail prepareFail execFail commitFail tbl q lang
        items).err = true) := by
  refine ⟨fun he => ?_, ?_, fun hb hp hex => ?_⟩
  · subst he
    rfl
  · unfold InsertExternal
    split
    · intro h
      simp at h
    · split
      · intro _
        rfl
      · split
        · intro _
          rfl
        · split
          · intro _
            rfl
          · split
            · intro _
              rfl
            · intro h
              simp at h
  · subst hb
    subst hp
    have hnone : (insertLoop execFail q lang items 0 tbl).1 = none := by
      apply insertLoop_none_of_exists_fail
      obtain ⟨i, hi, hef⟩ := hex
      exact ⟨i, hi, by simpa using hef⟩
    have hne : items.isEmpty = false := by
      obtain ⟨i, hi, _⟩ := hex
      cases items with
      | nil => simp at hi
      | cons a l => rfl
    unfold InsertExternal
    rw [hne]
    simp only [Bool.false_eq_true, if_false]
    rcases hL : insertLoop execFail q lang items 0 tbl with ⟨o, n⟩
    rw [hL] at hnone
    simp at hnone
    subst hnone
    rfl

/-- Witness for C9: an empty batch is a no-op, and a batch whose first Exec
fails reports an error while leaving the table unchanged. -/
theorem insertExternal_atomicity_witness :
    InsertExternal false false failFirstExec false [] "rust" "en" [] =
      ⟨false, [], 0⟩ ∧
    (InsertExternal false false failFirstExec false [] "rust" "en"
      [⟨"Alpha", "u", "s"⟩]).err = true ∧
    (InsertExternal false false failFirstExec false [] "rust" "en"
      [⟨"Alpha", "u", "s"⟩]).table = [] := by
  have h1 := insertExternal_atomicity false false failFirstExec false []
    "rust" "en" []
  have h2 := insertExternal_atomicity false false failFirstExec false []
    "rust" "en" [⟨"Alpha", "u", "s"⟩]
  exact ⟨h1.1 rfl, h2.2.2 rfl rfl ⟨0, by decide, rfl⟩, h2.2.1 (by decide)⟩

/-- C10: a failing COUNT query makes ExternalExists report false, and under
that failure loadExternalBestEffort treats the pair as a cache miss and
issues exactly one fresh scraper call. -/
theorem externalExists_failure_is_miss (env : Env) (q lang : String)
    (h : env.existsFail = true) :
    ExternalExists env.existsFail env.extTable q lang = false ∧
    (loadExternalBestEffort env q lang).scraperCalls = 1 := by
  constructor
  · unfold ExternalExists
    rw [h]
    rfl
  · unfold loadExternalBestEffort
    unfold ExternalExists
    rw [h]
    simp only [Bool.false_eq_true, if_false]
    rcases hs : env.scrapeOutcome q 10 with e | scraped
    · split <;> rfl
    · by_cases hlen : 0 < scraped.length
      · simp only [hlen, if_true]
        split <;> rfl
      · simp only [hlen, if_false]
        split <;> rfl

/-- Witness for C10 in an environment with a broken existence check. -/
theorem externalExists_failure_is_miss_witness :
    ExternalExists envExistsBroken.existsFail envExistsBroken.extTable
      "welcome" "en" = false ∧
    (loadExternalBestEffort envExistsBroken "welcome" "en").scraperCalls = 1 :=
  externalExists_failure_is_miss envExistsBroken "welcome" "en" rfl

/-- Cache state after inserting, for query rust and language en, first an
item titled Alpha and then an item titled Beta, both bearing the same url.
The unique index of createTables is on (query, language, title), so the
second insert is not ignored. -/
def c1DoubleInsertTable : List ExtRow :=
  (InsertExternal false false noExecFail false
    (InsertExternal false false noExecFail false [] "rust" "en"
      [⟨"Alpha", "https://en.wikipedia.org/?curid=1", "s1"⟩]).table
    "rust" "en" [⟨"Beta", "https://en.wikipedia.org/?curid=1", "s2"⟩]).table

/-- C1 counterexample: two InsertExternal calls whose items bear the same
(query, language, url) triple but different titles leave two rows for that
triple (the second insert succeeds without error instead of being ignored),
and GetExternal returns that url twice, because the unique index installed
by createTables is on (query, language, title), not on
(query, language, url). -/
theorem insertExternal_url_triple_not_unique :
    (InsertExternal false false noExecFail false
      (InsertExternal false false noExecFail false [] "rust" "en"
        [⟨"Alpha", "https://en.wikipedia.org/?curid=1", "s1"⟩]).table
      "rust" "en" [⟨"Beta", "https://en.wikipedia.org/?curid=1", "s2"⟩]).err
        = false ∧
    (c1DoubleInsertTable.filter (fun r => r.query == "rust" &&
      r.language == "en" &&
      r.url == "https://en.wikipedia.org/?curid=1")).length = 2 ∧
    GetExternal false c1DoubleInsertTable "rust" "en" =
      .ok [⟨"Alpha", "https://en.wikipedia.org/?curid=1", "s1"⟩,
           ⟨"Beta", "https://en.wikipedia.org/?curid=1", "s2"⟩] := by
  refine ⟨by decide, by decide, by rfl⟩

/-- C1 amended: the uniqueness key of the cache is (query, language, title).
Inserting the same item twice is idempotent: starting from an empty cache,
the second InsertExternal call returns no error and changes nothing, exactly
one row for the item remains, and GetExternal returns the item exactly
once. -/
theorem insertExternal_title_idempotent (q lang : String)
    (x : ExternalResult) :
    InsertExternal false false noExecFail false
        (InsertExternal false false noExecFail false [] q lang [x]).table
        q lang [x] =
      ⟨false, [⟨q, lang, x.title, x.url, x.snippet⟩], 4⟩ ∧
    GetExternal false
        (InsertExternal false false noExecFail false
          (InsertExternal false false noExecFail false [] q lang [x]).table
          q lang [x]).table q lang = .ok [x] := by
  have h1 : InsertExternal false false noExecFail false [] q lang [x] =
      ⟨false, [⟨q, lang, x.title, x.url, x.snippet⟩], 4⟩ := by
    simp [InsertExternal, insertLoop, insertOrIgnore, noExecFail]
  have h2 : InsertExternal false false noExecFail false
      [⟨q, lang, x.title, x.url, x.snippet⟩] q lang [x] =
      ⟨false, [⟨q, lang, x.title, x.url, x.snippet⟩], 4⟩ := by
    simp [InsertExternal, insertLoop, insertOrIgnore, conflictsWith,
      noExecFail]
  rw [h1]
  dsimp only
  rw [h2]
  refine ⟨rfl, ?_⟩
  dsimp only
  simp [GetExternal]

/-- Witness for the amended C1 at a concrete item. -/
theorem insertExternal_title_idempotent_witness :
    InsertExternal false false noExecFail false
        (InsertExternal false false noExecFail false [] "rust" "en"
          [⟨"Rust", "https://en.wikipedia.org/?curid=1", "s"⟩]).table
        "rust" "en" [⟨"Rust", "https://en.wikipedia.org/?curid=1", "s"⟩] =
      ⟨false, [⟨"rust", "en", "Rust", "https://en.wikipedia.org/?curid=1",
        "s"⟩], 4⟩ ∧
    GetExternal false
        (InsertExternal false false noExecFail false
          (InsertExternal false false noExecFail false [] "rust" "en"
            [⟨"Rust", "https://en.wikipedia.org/?curid=1", "s"⟩]).table
          "rust" "en"
          [⟨"Rust", "https://en.wikipedia.org/?curid=1", "s"⟩]).table
        "rust" "en" =
      .ok [⟨"Rust", "https://en.wikipedia.org/?curid=1", "s"⟩] :=
  insertExternal_title_idempotent "rust" "en"
    ⟨"Rust", "https://en.wikipedia.org/?curid=1", "s"⟩

end WhoKnows
